import Mathlib

/-! Verification development.
Verification of the easy-deploy deploy pipeline (Go source, `main.go` of the
deployed revision: handlers `handleDeploy`, `CloneAndBuild`, `findFreePort`,
`parseJsonConfig`).

The Go program shells out to external tools (git, docker) and the operating
system (temp directories, TCP binds, files).  The embedding makes every
external interaction explicit:

* an `Env` record supplies the outcome of each external command invocation
  (success flags and raw textual outputs), mirroring what `CombinedOutput`
  would have returned;
* the host's container runtime is a `List Container` threaded through the
  pipeline; `docker ps -q --filter ancestor=<name>` is modelled as listing the
  identifiers of containers whose ancestor image name equals `<name>`,
  `docker rm -f <id>` as removal by identifier, `docker run` as prepending a
  fresh container (docker lists newest first);
* every spawned external process is recorded in an event trace, together with
  the workspace-cleanup action of the deferred `os.RemoveAll`.

Pure string manipulations of the Go code (`strings.TrimSpace`,
`strings.Split(s, ":")`, `strconv.Atoi`, `url.Parse`) are embedded as
executable Lean functions translated from their Go behaviour.
-/

namespace EasyDeploy

/-- A parsed Go `net/url.URL`, restricted to the two fields the pipeline
reads: `Host` and `Path` (`imageName := repoURL.Host + repoURL.Path`). -/
structure GoURL where
  host : String
  path : String
deriving Repr, DecidableEq

/-- An externally observed running container: its identifier, the image name
it was started from (the name component, which the `ancestor` filter of
`docker ps` matches), and the host port bound by `-p <port>:80`. -/
structure Container where
  id : String
  image : String
  hostPort : Int
deriving Repr, DecidableEq

/-- One external side effect of a pipeline run: a spawned process or the
deferred workspace removal. -/
inductive Event where
  | gitClone (u : GoURL)
  | gitRevParse
  | dockerBuild (imageFullName : String)
  | dockerPs (imageName : String)
  | dockerPortQuery (id : String)
  | dockerRm (id : String)
  | dockerRun (port : Int) (imageFullName : String)
  | removeWorkspace
deriving Repr, DecidableEq

/-- Outcome of `CloneAndBuild`.  The Go function returns only `error`; `ok`
additionally records the bound host port and the image reference passed to
`docker run` (the spec's Deployment projection), which in the source are
local variables `port` and `imageFullName`.  `panicked` models a Go runtime
panic (index out of range). -/
inductive PipelineResult where
  | panicked
  | failed (msg : String)
  | ok (port : Int) (imageFullName : String)
deriving Repr, DecidableEq

/-- Outcomes of the external world for one pipeline run: for each external
command the result the Go code would observe.  `isBound p = true` means
`net.Listen("tcp", ":p")` fails because the port is taken. -/
structure Env where
  /-- Result of `os.MkdirTemp`: `none` = failure, `some d` = the directory. -/
  tempDir : Option String
  /-- does `git clone` succeed? -/
  cloneOk : Bool
  /-- does the workspace root contain a `Dockerfile`? -/
  dockerfilePresent : Bool
  /-- Result of `git rev-parse --short HEAD`: `none` = failure, `some` raw output. -/
  revOutput : Option String
  /-- does `docker build` succeed? -/
  buildOk : Bool
  /-- does the `docker ps` query itself succeed? -/
  psOk : Bool
  /-- Result of `docker port <arg>`: `none` = command failure, `some` raw output. -/
  portOutput : String → Option String
  /-- Result of `docker run -d`: `none` = failure, `some` = the fresh container id. -/
  runId : Option String
  /-- which TCP ports are already bound by another listener. -/
  isBound : Nat → Bool

/-- Go `strings.TrimSpace` on a character list: drop leading and trailing
whitespace. -/
def trimChars (l : List Char) : List Char :=
  ((l.dropWhile Char.isWhitespace).reverse.dropWhile Char.isWhitespace).reverse

/-- Go `strings.TrimSpace` (and `bytes.TrimSpace` followed by `string`):
the input without leading and trailing whitespace. -/
def goTrimSpace (s : String) : String :=
  String.mk (trimChars s.data)

/-- A nonempty all-decimal-digit character list read as a number; `none`
otherwise. -/
def decDigits? (l : List Char) : Option Nat :=
  if l = [] then none
  else if l.all Char.isDigit then
    some (l.foldl (fun acc c => acc * 10 + (c.toNat - 48)) 0)
  else none

/-- Go `strconv.Atoi`: optional sign followed by at least one decimal digit;
anything else (including the empty string) is an error.  (64-bit overflow is
not modelled; all inputs in this development are far below it.) -/
def goAtoi (s : String) : Option Int :=
  match s.data with
  | '-' :: rest => (decDigits? rest).map (fun n => -(n : Int))
  | '+' :: rest => (decDigits? rest).map (fun n => (n : Int))
  | l => (decDigits? l).map (fun n => (n : Int))

/-- Go `strings.Split(s, ":")` on the character list of `s`: the (always
nonempty) list of maximal colon-free segments. -/
def goSplitColon : List Char → List (List Char)
  | [] => [[]]
  | c :: cs =>
    if c = ':' then [] :: goSplitColon cs
    else
      match goSplitColon cs with
      | [] => [[c]]
      | g :: gs => (c :: g) :: gs

/-- Outcome of the port-extraction expression
`strconv.Atoi(strings.Split(string(b), ":")[1])` applied to the trimmed
output of `docker port`: a Go panic when index 1 does not exist, an error
when `Atoi` fails, otherwise the parsed port. -/
inductive PortParse where
  | panicked
  | failed
  | parsed (port : Int)
deriving Repr, DecidableEq

/-- The Go code's handling of the `docker port` output `raw`:
`b = bytes.TrimSpace(b)` then `strconv.Atoi(strings.Split(string(b), ":")[1])`. -/
def parsePortOutput (raw : String) : PortParse :=
  let parts := goSplitColon (trimChars raw.data)
  match parts[1]? with
  | none => .panicked
  | some seg =>
    match goAtoi (String.mk seg) with
    | none => .failed
    | some n => .parsed n

/-- The loop of `findFreePort`, with the remaining number of candidate ports
made explicit: starting at `port`, try `fuel` consecutive ports and return
the first unbound one. -/
def findFreePortAux (isBound : Nat → Bool) : Nat → Nat → Option Nat
  | _, 0 => none
  | port, fuel + 1 =>
    if isBound port then findFreePortAux isBound (port + 1) fuel else some port

/-- Go `findFreePort`: lowest port in `[3000, 65535]` (62536 candidates)
whose `net.Listen`-and-`Close` probe succeeds; `none` models the
`"no free ports found"` error. -/
def findFreePort (isBound : Nat → Bool) : Option Nat :=
  findFreePortAux isBound 3000 62536

/-- The image name component: `imageName := repoURL.Host + repoURL.Path`. -/
def imageNameOf (u : GoURL) : String :=
  u.host ++ u.path

/-- The full image reference:
`imageFullName := fmt.Sprintf("%s:%s", imageName, imageTag)` with the tag
being the trimmed `git rev-parse --short HEAD` output. -/
def imageRefOf (u : GoURL) (revRaw : String) : String :=
  imageNameOf u ++ ":" ++ goTrimSpace revRaw

/-- The identifiers reported by `docker ps -q --filter ancestor=<imageName>`
on runtime state `st`: containers started from that image name, newest
first. -/
def psMatches (st : List Container) (imageName : String) : List Container :=
  st.filter (fun c => c.image == imageName)

/-- The value `containerID := strings.TrimSpace(string(b))` for the `docker ps -q`
output: the tool prints one identifier per line, so the trimmed output is the
newline-join of the reported identifiers (identifiers carry no surrounding
whitespace), and the empty string when nothing matches. -/
def containerIDOf (st : List Container) (imageName : String) : String :=
  String.intercalate "\n" ((psMatches st imageName).map (fun c => c.id))

/-- The launch tail of the pipeline:
`docker run -d -p <port>:80 <imageFullName>`; on success the runtime gains a
fresh container (docker lists newest first). -/
def launchStage (env : Env) (st : List Container) (port : Int)
    (imageName imageFullName : String) (evs : List Event) :
    PipelineResult × List Container × List Event :=
  let evs2 := evs ++ [.dockerRun port imageFullName]
  match env.runId with
  | none => (.failed "failed to run Docker container", st, evs2)
  | some newId => (.ok port imageFullName, ⟨newId, imageName, port⟩ :: st, evs2)

/-- The body of `CloneAndBuild` after the temp directory exists: clone,
Dockerfile check, rev-parse, build, probe, reconcile, launch.  Returns the
result, the final runtime state and the trace of external commands (without
the deferred workspace removal, which the wrapper appends). -/
def runPipeline (env : Env) (st : List Container) (u : GoURL) :
    PipelineResult × List Container × List Event :=
  let ev0 : List Event := [.gitClone u]
  if !env.cloneOk then (.failed "failed to clone repository", st, ev0)
  else if !env.dockerfilePresent then
    (.failed "dockerfile not found in repository", st, ev0)
  else
    let ev1 := ev0 ++ [.gitRevParse]
    match env.revOutput with
    | none => (.failed "failed to get last commit hash", st, ev1)
    | some revRaw =>
      let imageName := imageNameOf u
      let imageFullName := imageRefOf u revRaw
      let ev2 := ev1 ++ [.dockerBuild imageFullName]
      if !env.buildOk then (.failed "failed to build Docker image", st, ev2)
      else
        let ev3 := ev2 ++ [.dockerPs imageName]
        if !env.psOk then
          (.failed "failed to check if container is running", st, ev3)
        else
          let containerID := containerIDOf st imageName
          if containerID ≠ "" then
            let ev4 := ev3 ++ [.dockerPortQuery containerID]
            match env.portOutput containerID with
            | none => (.failed "failed to get container port", st, ev4)
            | some raw =>
              match parsePortOutput raw with
              | .panicked => (.panicked, st, ev4)
              | .failed => (.failed "failed to parse container port", st, ev4)
              | .parsed port =>
                let ev5 := ev4 ++ [.dockerRm containerID]
                if st.any (fun c => c.id == containerID) then
                  launchStage env (st.filter (fun c => c.id != containerID))
                    port imageName imageFullName ev5
                else (.failed "failed to remove container", st, ev5)
          else
            match findFreePort env.isBound with
            | none => (.failed "failed to find free port", st, ev3)
            | some p => launchStage env st (p : Int) imageName imageFullName ev3

/-- Function `CloneAndBuild`: create the scratch workspace, then run the pipeline;
`defer os.RemoveAll(tempDir)` removes the workspace on every exit path after
its creation (including a panic, since deferred calls run during a panic). -/
def CloneAndBuild (env : Env) (st : List Container) (u : GoURL) :
    PipelineResult × List Container × List Event :=
  match env.tempDir with
  | none => (.failed "failed to create temp dir", st, [])
  | some _ =>
    let r := runPipeline env st u
    (r.1, r.2.1, r.2.2 ++ [.removeWorkspace])

/-! ## The fragment of Go `net/url.Parse` that the handler exercises

`url.Parse` rejects a raw URL only in narrow cases; in particular a plain
string with spaces parses successfully (the whole string becomes the path).
The model covers: the control-character rejection, scheme detection
(`getScheme`), and the authority/path split after `//`.  Percent-escapes,
userinfo, query/fragment and host validation are outside the fragment the
claims exercise; inputs in this development contain none of them. -/

/-- Does the raw URL contain an ASCII control byte?  `url.Parse` rejects
exactly these outright (`"net/url: invalid control character in URL"`). -/
def containsCTL (s : String) : Bool :=
  s.data.any (fun c => c.toNat < 0x20 || c.toNat == 0x7f)

/-- Result of Go's `getScheme`: no scheme prefix, a malformed scheme
(leading colon), or a scheme plus the remainder. -/
inductive SchemeScan where
  | noScheme
  | schemeErr
  | found (scheme : String) (rest : List Char)
deriving Repr, DecidableEq

/-- Go `getScheme`, scanning for `<scheme>:` where the scheme starts with a
letter and continues with letters, digits, `+`, `-`, `.`; any other
character before a colon means the string has no scheme. -/
def schemeScanAux (acc : List Char) : List Char → SchemeScan
  | [] => .noScheme
  | c :: cs =>
    if c = ':' then
      if acc = [] then .schemeErr else .found (String.mk acc.reverse) cs
    else if c.isAlpha then schemeScanAux (c :: acc) cs
    else if c.isDigit || c = '+' || c = '-' || c = '.' then
      if acc = [] then .noScheme else schemeScanAux (c :: acc) cs
    else .noScheme

/-- Parse the remainder after the scheme: `//authority/path` splits into
host (up to the first `/`) and path; a remainder starting with `/` is a
pure path with empty host; anything else is an opaque remainder when a
scheme was present (empty `Host` and `Path`), and a pure path otherwise. -/
def parseAfterScheme (hasScheme : Bool) (rest : List Char) : GoURL :=
  match rest with
  | '/' :: '/' :: auth =>
    ⟨String.mk (auth.takeWhile (fun c => c ≠ '/')),
     String.mk (auth.dropWhile (fun c => c ≠ '/'))⟩
  | '/' :: _ => ⟨"", String.mk rest⟩
  | _ => if hasScheme then ⟨"", ""⟩ else ⟨"", String.mk rest⟩

/-- The modelled `url.Parse`: `none` is a parse error (handler answers 400
`Invalid URL`), `some u` the parsed URL restricted to host and path. -/
def goURLParse (s : String) : Option GoURL :=
  if containsCTL s then none
  else
    match schemeScanAux [] s.data with
    | .schemeErr => none
    | .noScheme => some (parseAfterScheme false s.data)
    | .found _ rest => some (parseAfterScheme true rest)

/-! ## The HTTP handler -/

/-- Result of `json.NewDecoder(r.Body).Decode(&payload)`: either a decode
error or the decoded `url` field.  (Go `encoding/json` decodes the body
`\x7b"url": "not a url"\x7d` to `.decoded "not a url"`: JSON well-formedness
does not inspect the string's content.) -/
inductive DecodeOutcome where
  | decodeErr
  | decoded (url : String)
deriving Repr, DecidableEq

/-- The transport-level outcome `handleDeploy` produces: 400 with a message,
500, 200 with a body, or a panic (the net/http server recovers it and drops
the connection without a response). -/
inductive HttpOutcome where
  | badRequest (msg : String)
  | internalError
  | okResponse (body : String)
  | panicked
deriving Repr, DecidableEq

/-- Handler `handleDeploy`: decode the payload (400 on failure), parse the URL (400
on failure), run `CloneAndBuild` (500 on failure, 200 with the fixed
confirmation body on success). -/
def handleDeploy (dec : DecodeOutcome) (env : Env) (st : List Container) :
    HttpOutcome × List Container × List Event :=
  match dec with
  | .decodeErr => (.badRequest "Invalid request payload", st, [])
  | .decoded rawURL =>
    match goURLParse rawURL with
    | none => (.badRequest "Invalid URL", st, [])
    | some u =>
      match CloneAndBuild env st u with
      | (.panicked, st2, evs) => (.panicked, st2, evs)
      | (.failed _, st2, evs) => (.internalError, st2, evs)
      | (.ok _ _, st2, evs) =>
        (.okResponse "Repository successfully processed", st2, evs)

/-! ## Startup configuration -/

/-- The startup configuration: `http_port`. -/
structure Config where
  httpPort : Int
deriving Repr, DecidableEq

/-- What decoding the config file's JSON into the pre-initialized `Config`
yields: a parse error, or a successfully decoded document in which the
`http_port` field is present with a value or absent (leaving the preset). -/
inductive ConfigJson where
  | parseErr
  | doc (httpPort : Option Int)
deriving Repr, DecidableEq

/-- Result of `os.Open(configPath)`: the file does not exist, another open
error, or an opened file whose JSON decoding outcome is given. -/
inductive OpenResult where
  | notExist
  | openFailed
  | opened (json : ConfigJson)
deriving Repr, DecidableEq

/-- Loader `parseJsonConfig`: preset `HTTPPort = 80`; a missing file is success with
the preset; an open error or a JSON parse error is an error; a decoded
document overrides the preset only where it has the field. -/
def parseJsonConfig (r : OpenResult) : Except String Config :=
  match r with
  | .notExist => .ok ⟨80⟩
  | .openFailed => .error "failed to open config file"
  | .opened .parseErr => .error "failed to parse config file"
  | .opened (.doc p) =>
    match p with
    | none => .ok ⟨80⟩
    | some v => .ok ⟨v⟩

/-! ## Helper lemmas -/

theorem findFreePortAux_eq_some (isBound : Nat → Bool) (fuel : Nat) :
    ∀ start p, findFreePortAux isBound start fuel = some p ↔
      start ≤ p ∧ p < start + fuel ∧ isBound p = false ∧
        ∀ q, start ≤ q → q < p → isBound q = true := by
  induction fuel with
  | zero =>
    intro start p
    simp only [findFreePortAux]
    constructor
    · intro h; exact absurd h (by simp)
    · intro h; omega
  | succ n ih =>
    intro start p
    simp only [findFreePortAux]
    by_cases hb : isBound start
    · rw [if_pos hb, ih]
      constructor
      · rintro ⟨h1, h2, h3, h4⟩
        refine ⟨by omega, by omega, h3, ?_⟩
        intro q hq1 hq2
        rcases Nat.eq_or_lt_of_le hq1 with rfl | hlt
        · exact hb
        · exact h4 q hlt hq2
      · rintro ⟨h1, h2, h3, h4⟩
        have hne : p ≠ start := by
          intro he; rw [he] at h3; rw [h3] at hb; exact Bool.noConfusion hb
        refine ⟨by omega, by omega, h3, ?_⟩
        intro q hq1 hq2
        exact h4 q (by omega) hq2
    · rw [if_neg hb]
      simp only [Option.some.injEq]
      constructor
      · rintro rfl
        exact ⟨Nat.le_refl _, by omega, Bool.eq_false_iff.mpr hb, by omega⟩
      · rintro ⟨h1, h2, h3, h4⟩
        rcases Nat.eq_or_lt_of_le h1 with he | hlt
        · exact he
        · exact absurd (h4 start (Nat.le_refl _) hlt) (by simpa using hb)

theorem findFreePortAux_eq_none (isBound : Nat → Bool) (fuel : Nat) :
    ∀ start, findFreePortAux isBound start fuel = none ↔
      ∀ q, start ≤ q → q < start + fuel → isBound q = true := by
  induction fuel with
  | zero =>
    intro start
    simp only [findFreePortAux]
    constructor
    · intro _ q h1 h2; omega
    · intro _; trivial
  | succ n ih =>
    intro start
    simp only [findFreePortAux]
    by_cases hb : isBound start
    · rw [if_pos hb, ih]
      constructor
      · intro h q hq1 hq2
        rcases Nat.eq_or_lt_of_le hq1 with rfl | hlt
        · exact hb
        · exact h q hlt (by omega)
      · intro h q hq1 hq2
        exact h q (by omega) (by omega)
    · rw [if_neg hb]
      constructor
      · intro h; exact absurd h (by simp)
      · intro h
        exact absurd (h start (Nat.le_refl _) (by omega)) (by simpa using hb)

theorem goSplitColon_ne_nil (l : List Char) : goSplitColon l ≠ [] := by
  cases l with
  | nil => simp [goSplitColon]
  | cons c cs =>
    simp only [goSplitColon]
    by_cases h : c = ':'
    · simp [h]
    · rw [if_neg h]
      cases hg : goSplitColon cs with
      | nil => simp
      | cons g gs => simp

theorem goSplitColon_length (l : List Char) :
    (goSplitColon l).length = l.count ':' + 1 := by
  induction l with
  | nil => simp [goSplitColon]
  | cons c cs ih =>
    simp only [goSplitColon]
    by_cases h : c = ':'
    · subst h
      simp [List.count_cons, ih]
    · rw [if_neg h]
      cases hg : goSplitColon cs with
      | nil => exact absurd hg (goSplitColon_ne_nil cs)
      | cons g gs =>
        rw [hg] at ih
        simp only [List.length_cons] at ih ⊢
        rw [List.count_cons]
        simp [h, Ne.symm h] at ih ⊢
        omega

theorem intercalate_singleton (s a : String) :
    String.intercalate s [a] = a := rfl

/-- The container `c` is a member of the runtime state whenever the probe reports it. -/
theorem mem_of_psMatches {st : List Container} {name : String} {c : Container}
    (h : psMatches st name = [c]) : c ∈ st := by
  have : c ∈ psMatches st name := by rw [h]; exact List.mem_singleton.mpr rfl
  exact List.mem_of_mem_filter this

/-- If the probe reports exactly the prior instance `c`, removing by its
identifier leaves no instance of the image name in the runtime state. -/
theorem psMatches_filter_id {st : List Container} {name : String} {c : Container}
    (hmatch : psMatches st name = [c]) :
    psMatches (st.filter (fun x => x.id != c.id)) name = [] := by
  unfold psMatches at hmatch ⊢
  rw [List.filter_comm, hmatch]
  simp

/-- Equational description of the pipeline on the reconcile branch with no
prior running instance: the port comes from the allocator, the launch
prepends a fresh container, and the trace is clone, rev-parse, build, probe,
run. -/
theorem runPipeline_noPrior (env : Env) (st : List Container) (u : GoURL)
    (r : String) (p : Nat) (nid : String)
    (hclone : env.cloneOk = true)
    (hdf : env.dockerfilePresent = true)
    (hrev : env.revOutput = some r)
    (hbuild : env.buildOk = true)
    (hps : env.psOk = true)
    (hcid : containerIDOf st (imageNameOf u) = "")
    (hfree : findFreePort env.isBound = some p)
    (hrun : env.runId = some nid) :
    runPipeline env st u =
      (.ok (p : Int) (imageRefOf u r),
       ⟨nid, imageNameOf u, (p : Int)⟩ :: st,
       [.gitClone u, .gitRevParse, .dockerBuild (imageRefOf u r),
        .dockerPs (imageNameOf u), .dockerRun (p : Int) (imageRefOf u r)]) := by
  simp only [runPipeline, hclone, hdf, hrev, hbuild, hps, hcid, hfree, hrun, launchStage,
    Bool.not_true, Bool.false_eq_true, if_false, ne_eq, not_true_eq_false, if_true]
  simp

/-- Equational description of the pipeline on the reconcile branch with a
single prior running instance `c` whose port query parses to its bound port:
the old instance is removed, the new one reuses its port, and the trace is
clone, rev-parse, build, probe, port query, removal, run. -/
theorem runPipeline_prior (env : Env) (st : List Container) (u : GoURL)
    (r raw nid : String) (c : Container)
    (hclone : env.cloneOk = true)
    (hdf : env.dockerfilePresent = true)
    (hrev : env.revOutput = some r)
    (hbuild : env.buildOk = true)
    (hps : env.psOk = true)
    (hmatch : psMatches st (imageNameOf u) = [c])
    (hcid : c.id ≠ "")
    (hport : env.portOutput c.id = some raw)
    (hparse : parsePortOutput raw = .parsed c.hostPort)
    (hrun : env.runId = some nid) :
    runPipeline env st u =
      (.ok c.hostPort (imageRefOf u r),
       ⟨nid, imageNameOf u, c.hostPort⟩ :: st.filter (fun x => x.id != c.id),
       [.gitClone u, .gitRevParse, .dockerBuild (imageRefOf u r),
        .dockerPs (imageNameOf u), .dockerPortQuery c.id, .dockerRm c.id,
        .dockerRun c.hostPort (imageRefOf u r)]) := by
  have hcid2 : containerIDOf st (imageNameOf u) = c.id := by
    simp [containerIDOf, hmatch, intercalate_singleton]
  have hany : st.any (fun x => x.id == c.id) = true :=
    List.any_eq_true.mpr ⟨c, mem_of_psMatches hmatch, by simp⟩
  simp only [runPipeline, hclone, hdf, hrev, hbuild, hps, hcid2, hport, hparse, hany,
    hrun, launchStage, Bool.not_true, Bool.false_eq_true, if_false]
  simp [hcid]

/-- Any successful pipeline run tags its image with `imageRefOf u r`, a pure
function of the URL's host and path and of the trimmed revision output. -/
theorem runPipeline_ok_imageRef (env : Env) (st : List Container) (u : GoURL)
    (r : String) (port : Int) (img : String)
    (hrev : env.revOutput = some r)
    (h : (runPipeline env st u).1 = .ok port img) :
    img = imageRefOf u r := by
  simp only [runPipeline, hrev, launchStage] at h
  repeat' split at h
  all_goals simp_all

/-- Version of `runPipeline_ok_imageRef` for `CloneAndBuild`. -/
theorem CloneAndBuild_ok_imageRef (env : Env) (st : List Container) (u : GoURL)
    (r : String) (port : Int) (img : String)
    (hrev : env.revOutput = some r)
    (h : (CloneAndBuild env st u).1 = .ok port img) :
    img = imageRefOf u r := by
  unfold CloneAndBuild at h
  cases htd : env.tempDir with
  | none => rw [htd] at h; exact absurd h (by simp)
  | some d =>
    rw [htd] at h
    exact runPipeline_ok_imageRef env st u r port img hrev h

/-- Whenever the probe reports a nonempty identifier string, that exact
string is passed to the port query, whatever the query then returns. -/
theorem runPipeline_portQuery_mem (env : Env) (st : List Container) (u : GoURL)
    (r cid : String)
    (hclone : env.cloneOk = true)
    (hdf : env.dockerfilePresent = true)
    (hrev : env.revOutput = some r)
    (hbuild : env.buildOk = true)
    (hps : env.psOk = true)
    (hcid : containerIDOf st (imageNameOf u) = cid)
    (hne : cid ≠ "") :
    Event.dockerPortQuery cid ∈ (runPipeline env st u).2.2 := by
  simp only [runPipeline, hclone, hdf, hrev, hbuild, hps, hcid, launchStage, Bool.not_true,
    Bool.false_eq_true, if_false, if_pos hne]
  repeat' split
  all_goals simp

/-! ## Claims -/

/-- C4: for every fetched workspace whose root lacks the Dockerfile, the
pipeline aborts with the distinct deployability error
`"dockerfile not found in repository"` and the build tool is never invoked:
the trace after the clone holds only the workspace cleanup, no
`dockerBuild`. -/
theorem dockerfile_check_aborts_before_build (env : Env) (st : List Container)
    (u : GoURL) (d : String)
    (htmp : env.tempDir = some d)
    (hclone : env.cloneOk = true)
    (hdf : env.dockerfilePresent = false) :
    CloneAndBuild env st u =
      (.failed "dockerfile not found in repository", st,
       [.gitClone u, .removeWorkspace]) ∧
    ∀ i, Event.dockerBuild i ∉ (CloneAndBuild env st u).2.2 := by
  have h : CloneAndBuild env st u =
      (.failed "dockerfile not found in repository", st,
       [.gitClone u, .removeWorkspace]) := by
    simp [CloneAndBuild, htmp, runPipeline, hclone, hdf]
  refine ⟨h, ?_⟩
  rw [h]
  intro i
  simp

/-- Witness for C4 at a concrete environment lacking the Dockerfile. -/
theorem dockerfile_check_aborts_before_build_witness :
    CloneAndBuild
        ⟨some "t", true, false, some "abc", true, true, fun _ => none, some "n1",
         fun _ => false⟩
        [] ⟨"g.h", "/x"⟩ =
      (.failed "dockerfile not found in repository", [],
       [.gitClone ⟨"g.h", "/x"⟩, .removeWorkspace]) ∧
    ∀ i, Event.dockerBuild i ∉
      (CloneAndBuild
        ⟨some "t", true, false, some "abc", true, true, fun _ => none, some "n1",
         fun _ => false⟩
        [] ⟨"g.h", "/x"⟩).2.2 :=
  dockerfile_check_aborts_before_build _ _ _ "t" rfl rfl rfl

/-- C6: the port allocator returns `some p` exactly when `p` is the lowest
unbound port of the range `[3000, 65535]`, and fails (the distinct
`"no free ports found"` outcome, its only failure) exactly when every port
of the range is bound. -/
theorem findFreePort_contract (isBound : Nat → Bool) :
    (∀ p, findFreePort isBound = some p ↔
      3000 ≤ p ∧ p ≤ 65535 ∧ isBound p = false ∧
        ∀ q, 3000 ≤ q → q < p → isBound q = true) ∧
    (findFreePort isBound = none ↔
      ∀ q, 3000 ≤ q → q ≤ 65535 → isBound q = true) := by
  constructor
  · intro p
    rw [findFreePort, findFreePortAux_eq_some]
    constructor
    · rintro ⟨h1, h2, h3, h4⟩
      exact ⟨h1, by omega, h3, h4⟩
    · rintro ⟨h1, h2, h3, h4⟩
      exact ⟨h1, by omega, h3, h4⟩
  · rw [findFreePort, findFreePortAux_eq_none]
    constructor
    · intro h q h1 h2
      exact h q h1 (by omega)
    · intro h q h1 h2
      exact h q h1 (by omega)

/-- C7: whenever the temp directory was created, the deferred cleanup makes
`removeWorkspace` the final action of every exit path of `CloneAndBuild`;
and a clone failure aborts the run with the clone error before any build
invocation. -/
theorem workspace_released_every_path (env : Env) (st : List Container)
    (u : GoURL) (d : String)
    (htmp : env.tempDir = some d) :
    (CloneAndBuild env st u).2.2.getLast? = some .removeWorkspace ∧
    (env.cloneOk = false →
      CloneAndBuild env st u =
        (.failed "failed to clone repository", st,
         [.gitClone u, .removeWorkspace]) ∧
      ∀ i, Event.dockerBuild i ∉ (CloneAndBuild env st u).2.2) := by
  constructor
  · simp [CloneAndBuild, htmp, List.getLast?_concat]
  · intro hclone
    have h : CloneAndBuild env st u =
        (.failed "failed to clone repository", st,
         [.gitClone u, .removeWorkspace]) := by
      simp [CloneAndBuild, htmp, runPipeline, hclone]
    refine ⟨h, ?_⟩
    rw [h]
    intro i
    simp

/-- Witness for C7 at a concrete environment whose clone fails. -/
theorem workspace_released_every_path_witness :
    (CloneAndBuild
        ⟨some "t", false, true, some "abc", true, true, fun _ => none, some "n1",
         fun _ => false⟩
        [] ⟨"g.h", "/x"⟩).2.2.getLast? = some .removeWorkspace ∧
    ((⟨some "t", false, true, some "abc", true, true, fun _ => none, some "n1",
        fun _ => false⟩ : Env).cloneOk = false →
      CloneAndBuild
          ⟨some "t", false, true, some "abc", true, true, fun _ => none, some "n1",
           fun _ => false⟩
          [] ⟨"g.h", "/x"⟩ =
        (.failed "failed to clone repository", [],
         [.gitClone ⟨"g.h", "/x"⟩, .removeWorkspace]) ∧
      ∀ i, Event.dockerBuild i ∉
        (CloneAndBuild
          ⟨some "t", false, true, some "abc", true, true, fun _ => none, some "n1",
           fun _ => false⟩
          [] ⟨"g.h", "/x"⟩).2.2) :=
  workspace_released_every_path _ _ _ "t" rfl

/-- C9: the config loader returns the default port 80 when the file is
absent or the decoded document lacks `http_port`, the decoded value when
present, and an error exactly for an unreadable or unparsable file. -/
theorem parseJsonConfig_contract :
    parseJsonConfig .notExist = .ok ⟨80⟩ ∧
    (∀ v, parseJsonConfig (.opened (.doc (some v))) = .ok ⟨v⟩) ∧
    parseJsonConfig (.opened (.doc none)) = .ok ⟨80⟩ ∧
    parseJsonConfig .openFailed = .error "failed to open config file" ∧
    parseJsonConfig (.opened .parseErr) = .error "failed to parse config file" :=
  ⟨rfl, fun _ => rfl, rfl, rfl, rfl⟩

/-- C10: the port extraction from the `docker port` output panics (index 1
out of range after splitting at colons) exactly when the trimmed output
contains no `':'` — a format precondition on the external runtime's
output. -/
theorem portSplit_panics_iff_no_colon (raw : String) :
    parsePortOutput raw = .panicked ↔ ':' ∉ trimChars raw.data := by
  unfold parsePortOutput
  cases h1 : (goSplitColon (trimChars raw.data))[1]? with
  | none =>
    simp only [h1]
    constructor
    · intro _
      have hlen : (goSplitColon (trimChars raw.data)).length ≤ 1 :=
        List.getElem?_eq_none_iff.mp h1
      rw [goSplitColon_length] at hlen
      exact List.count_eq_zero.mp (by omega)
    · intro _; trivial
  | some seg =>
    have hlt : 1 < (goSplitColon (trimChars raw.data)).length := by
      by_contra hc
      rw [List.getElem?_eq_none_iff.mpr (by omega)] at h1
      exact Option.noConfusion h1
    rw [goSplitColon_length] at hlt
    have hmem : ':' ∈ trimChars raw.data := List.count_pos_iff.mp (by omega)
    simp only [h1]
    constructor
    · intro hcontra
      exfalso
      cases hg : goAtoi (String.mk seg) <;> simp [hg] at hcontra
    · intro hnot
      exact absurd hmem hnot

/-- C1 counterexample: two successful no-prior-instance deploys that bind
different ports (3000 and 3001) receive the identical fixed response body,
so the HTTP response does not report the bound port (nor the ImageRef): the
handler writes only `"Repository successfully processed"`. -/
theorem response_constant_across_ports :
    (handleDeploy (.decoded "https://g.h/x")
        ⟨some "t", true, true, some "abc", true, true, fun _ => none, some "n1",
         fun _ => false⟩ []).1 =
      .okResponse "Repository successfully processed" ∧
    (handleDeploy (.decoded "https://g.h/x")
        ⟨some "t", true, true, some "abc", true, true, fun _ => none, some "n1",
         fun q => q == 3000⟩ []).1 =
      .okResponse "Repository successfully processed" ∧
    Event.dockerRun 3000 "g.h/x:abc" ∈
      (handleDeploy (.decoded "https://g.h/x")
        ⟨some "t", true, true, some "abc", true, true, fun _ => none, some "n1",
         fun _ => false⟩ []).2.2 ∧
    Event.dockerRun 3001 "g.h/x:abc" ∈
      (handleDeploy (.decoded "https://g.h/x")
        ⟨some "t", true, true, some "abc", true, true, fun _ => none, some "n1",
         fun q => q == 3000⟩ []).2.2 := by
  refine ⟨rfl, rfl, ?_, ?_⟩ <;> decide

/-- C1 as amended: a successful deploy with no prior running instance binds
the lowest free port of the range starting at 3000, and the HTTP response is
200 with the fixed confirmation body — the bound port and ImageRef appear in
the launch command (and log), not in the response. -/
theorem deploy_no_prior_binds_lowest_free_port
    (s : String) (u : GoURL) (env : Env) (st : List Container)
    (d r nid : String) (p : Nat)
    (hparse : goURLParse s = some u)
    (htmp : env.tempDir = some d)
    (hclone : env.cloneOk = true)
    (hdf : env.dockerfilePresent = true)
    (hrev : env.revOutput = some r)
    (hbuild : env.buildOk = true)
    (hps : env.psOk = true)
    (hcid : containerIDOf st (imageNameOf u) = "")
    (hfree : findFreePort env.isBound = some p)
    (hrun : env.runId = some nid) :
    handleDeploy (.decoded s) env st =
      (.okResponse "Repository successfully processed",
       ⟨nid, imageNameOf u, (p : Int)⟩ :: st,
       [.gitClone u, .gitRevParse, .dockerBuild (imageRefOf u r),
        .dockerPs (imageNameOf u), .dockerRun (p : Int) (imageRefOf u r),
        .removeWorkspace]) ∧
    3000 ≤ p ∧ p ≤ 65535 ∧ env.isBound p = false ∧
    ∀ q, 3000 ≤ q → q < p → env.isBound q = true := by
  have hrp := runPipeline_noPrior env st u r p nid hclone hdf hrev hbuild hps hcid
    hfree hrun
  have hcb : CloneAndBuild env st u =
      (.ok (p : Int) (imageRefOf u r),
       ⟨nid, imageNameOf u, (p : Int)⟩ :: st,
       [.gitClone u, .gitRevParse, .dockerBuild (imageRefOf u r),
        .dockerPs (imageNameOf u), .dockerRun (p : Int) (imageRefOf u r),
        .removeWorkspace]) := by
    simp [CloneAndBuild, htmp, hrp]
  have hfree2 : findFreePortAux env.isBound 3000 62536 = some p := hfree
  obtain ⟨ha, hb, hc2, hd⟩ := (findFreePortAux_eq_some env.isBound 62536 3000 p).mp hfree2
  refine ⟨?_, ha, by omega, hc2, hd⟩
  simp [handleDeploy, hparse, hcb]

/-- Witness for the amended C1 at a concrete environment with every port
free: port 3000 is chosen and the response is the fixed body. -/
theorem deploy_no_prior_binds_lowest_free_port_witness :
    handleDeploy (.decoded "https://g.h/x")
        ⟨some "t", true, true, some "abc", true, true, fun _ => none, some "n1",
         fun _ => false⟩ [] =
      (.okResponse "Repository successfully processed",
       ⟨"n1", imageNameOf ⟨"g.h", "/x"⟩, (3000 : Int)⟩ :: [],
       [.gitClone ⟨"g.h", "/x"⟩, .gitRevParse,
        .dockerBuild (imageRefOf ⟨"g.h", "/x"⟩ "abc"),
        .dockerPs (imageNameOf ⟨"g.h", "/x"⟩),
        .dockerRun (3000 : Int) (imageRefOf ⟨"g.h", "/x"⟩ "abc"),
        .removeWorkspace]) ∧
    3000 ≤ 3000 ∧ 3000 ≤ 65535 ∧
    (⟨some "t", true, true, some "abc", true, true, fun _ => none, some "n1",
      fun _ => false⟩ : Env).isBound 3000 = false ∧
    ∀ q, 3000 ≤ q → q < 3000 →
      (⟨some "t", true, true, some "abc", true, true, fun _ => none, some "n1",
        fun _ => false⟩ : Env).isBound q = true :=
  deploy_no_prior_binds_lowest_free_port "https://g.h/x" ⟨"g.h", "/x"⟩ _ []
    "t" "abc" "n1" 3000 (by decide) rfl rfl rfl rfl rfl rfl rfl (by decide) rfl

/-- C2: evaluation at the failing input.  The body `\x7b"url": "not a url"\x7d`
decodes to the URL string `"not a url"`, which Go's `url.Parse` accepts (the
whole string becomes the path), so the handler does not answer 400: it runs
the pipeline, the version-control tool is invoked (`gitClone` appears in the
trace), the clone fails, and the caller receives 500. -/
theorem not_a_url_reaches_git_and_yields_500 :
    goURLParse "not a url" = some ⟨"", "not a url"⟩ ∧
    handleDeploy (.decoded "not a url")
        ⟨some "t", false, true, some "", true, true, fun _ => none, none,
         fun _ => false⟩ [] =
      (.internalError, [],
       [.gitClone ⟨"", "not a url"⟩, .removeWorkspace]) := by
  constructor <;> decide

/-- C3: a successful redeploy over a single prior running instance `c` of
the same image name ends with exactly one running instance of that name,
bound to the same host port, under a fresh identifier; the prior identifier
is no longer listed; and the removal of the old instance precedes the launch
of the new one in the trace. -/
theorem redeploy_reuses_port_and_retires_old
    (env : Env) (st : List Container) (u : GoURL) (d r raw nid : String)
    (c : Container)
    (htmp : env.tempDir = some d)
    (hclone : env.cloneOk = true)
    (hdf : env.dockerfilePresent = true)
    (hrev : env.revOutput = some r)
    (hbuild : env.buildOk = true)
    (hps : env.psOk = true)
    (hmatch : psMatches st (imageNameOf u) = [c])
    (hcids : c.id ≠ "")
    (hport : env.portOutput c.id = some raw)
    (hparse : parsePortOutput raw = .parsed c.hostPort)
    (hrun : env.runId = some nid)
    (hfresh : nid ≠ c.id) :
    (CloneAndBuild env st u).1 = .ok c.hostPort (imageRefOf u r) ∧
    psMatches (CloneAndBuild env st u).2.1 (imageNameOf u) =
      [⟨nid, imageNameOf u, c.hostPort⟩] ∧
    (∀ x ∈ (CloneAndBuild env st u).2.1, x.id ≠ c.id) ∧
    (CloneAndBuild env st u).2.2 =
      [.gitClone u, .gitRevParse, .dockerBuild (imageRefOf u r),
       .dockerPs (imageNameOf u), .dockerPortQuery c.id, .dockerRm c.id,
       .dockerRun c.hostPort (imageRefOf u r), .removeWorkspace] ∧
    ∃ i j : Nat, i < j ∧
      (CloneAndBuild env st u).2.2[i]? = some (Event.dockerRm c.id) ∧
      (CloneAndBuild env st u).2.2[j]? =
        some (Event.dockerRun c.hostPort (imageRefOf u r)) := by
  have hrp := runPipeline_prior env st u r raw nid c hclone hdf hrev hbuild hps
    hmatch hcids hport hparse hrun
  have hcb : CloneAndBuild env st u =
      (.ok c.hostPort (imageRefOf u r),
       ⟨nid, imageNameOf u, c.hostPort⟩ :: st.filter (fun x => x.id != c.id),
       [.gitClone u, .gitRevParse, .dockerBuild (imageRefOf u r),
        .dockerPs (imageNameOf u), .dockerPortQuery c.id, .dockerRm c.id,
        .dockerRun c.hostPort (imageRefOf u r), .removeWorkspace]) := by
    simp [CloneAndBuild, htmp, hrp]
  refine ⟨by rw [hcb], ?_, ?_, by rw [hcb], ?_⟩
  · rw [hcb]
    show psMatches
        (⟨nid, imageNameOf u, c.hostPort⟩ :: st.filter (fun x => x.id != c.id))
        (imageNameOf u) = _
    have h0 := psMatches_filter_id hmatch
    unfold psMatches at h0 ⊢
    rw [List.filter_cons_of_pos (by simp), h0]
  · rw [hcb]
    intro x hx
    rcases List.mem_cons.mp hx with he | hx2
    · rw [he]
      simpa using hfresh
    · have := (List.mem_filter.mp hx2).2
      simpa using this
  · refine ⟨5, 6, by omega, ?_, ?_⟩ <;> (rw [hcb]; rfl)

/-- Witness for C3: a prior instance `"aaa"` of image `g.h/x` on port 3000
is replaced by the fresh instance `"bbb"` on the same port. -/
theorem redeploy_reuses_port_and_retires_old_witness :
    (CloneAndBuild
        ⟨some "t", true, true, some "abc", true, true,
         fun _ => some "0.0.0.0:3000", some "bbb", fun _ => false⟩
        [⟨"aaa", "g.h/x", 3000⟩] ⟨"g.h", "/x"⟩).1 =
      .ok (3000 : Int) (imageRefOf ⟨"g.h", "/x"⟩ "abc") ∧
    psMatches
        (CloneAndBuild
          ⟨some "t", true, true, some "abc", true, true,
           fun _ => some "0.0.0.0:3000", some "bbb", fun _ => false⟩
          [⟨"aaa", "g.h/x", 3000⟩] ⟨"g.h", "/x"⟩).2.1
        (imageNameOf ⟨"g.h", "/x"⟩) =
      [⟨"bbb", imageNameOf ⟨"g.h", "/x"⟩, (3000 : Int)⟩] ∧
    (∀ x ∈ (CloneAndBuild
        ⟨some "t", true, true, some "abc", true, true,
         fun _ => some "0.0.0.0:3000", some "bbb", fun _ => false⟩
        [⟨"aaa", "g.h/x", 3000⟩] ⟨"g.h", "/x"⟩).2.1,
      x.id ≠ "aaa") ∧
    (CloneAndBuild
        ⟨some "t", true, true, some "abc", true, true,
         fun _ => some "0.0.0.0:3000", some "bbb", fun _ => false⟩
        [⟨"aaa", "g.h/x", 3000⟩] ⟨"g.h", "/x"⟩).2.2 =
      [.gitClone ⟨"g.h", "/x"⟩, .gitRevParse,
       .dockerBuild (imageRefOf ⟨"g.h", "/x"⟩ "abc"),
       .dockerPs (imageNameOf ⟨"g.h", "/x"⟩), .dockerPortQuery "aaa",
       .dockerRm "aaa",
       .dockerRun (3000 : Int) (imageRefOf ⟨"g.h", "/x"⟩ "abc"),
       .removeWorkspace] ∧
    ∃ i j : Nat, i < j ∧
      (CloneAndBuild
        ⟨some "t", true, true, some "abc", true, true,
         fun _ => some "0.0.0.0:3000", some "bbb", fun _ => false⟩
        [⟨"aaa", "g.h/x", 3000⟩] ⟨"g.h", "/x"⟩).2.2[i]? =
        some (Event.dockerRm "aaa") ∧
      (CloneAndBuild
        ⟨some "t", true, true, some "abc", true, true,
         fun _ => some "0.0.0.0:3000", some "bbb", fun _ => false⟩
        [⟨"aaa", "g.h/x", 3000⟩] ⟨"g.h", "/x"⟩).2.2[j]? =
        some (Event.dockerRun (3000 : Int) (imageRefOf ⟨"g.h", "/x"⟩ "abc")) :=
  redeploy_reuses_port_and_retires_old _ _ _ "t" "abc" "0.0.0.0:3000" "bbb"
    ⟨"aaa", "g.h/x", 3000⟩ rfl rfl rfl rfl rfl rfl (by decide) (by decide) rfl
    (by decide) rfl (by decide)

/-- C5: the ImageRef of any successful run is `imageRefOf`, a pure function
of the URL's host and path (name component) and of the trimmed revision
identifier (tag component); hence two deploys of the same URL at the same
revision compute the same ImageRef. -/
theorem imageref_deterministic
    (env1 env2 : Env) (st1 st2 : List Container) (u : GoURL) (r : String)
    (p1 p2 : Int) (i1 i2 : String)
    (hrev1 : env1.revOutput = some r)
    (hrev2 : env2.revOutput = some r)
    (h1 : (CloneAndBuild env1 st1 u).1 = .ok p1 i1)
    (h2 : (CloneAndBuild env2 st2 u).1 = .ok p2 i2) :
    i1 = imageRefOf u r ∧ i2 = imageRefOf u r ∧ i1 = i2 := by
  have e1 := CloneAndBuild_ok_imageRef env1 st1 u r p1 i1 hrev1 h1
  have e2 := CloneAndBuild_ok_imageRef env2 st2 u r p2 i2 hrev2 h2
  exact ⟨e1, e2, e1.trans e2.symm⟩

/-- Witness for C5: two successful deploys of the same URL at revision
`abc`, binding different ports, share the ImageRef `g.h/x:abc`. -/
theorem imageref_deterministic_witness :
    "g.h/x:abc" = imageRefOf ⟨"g.h", "/x"⟩ "abc" ∧
    "g.h/x:abc" = imageRefOf ⟨"g.h", "/x"⟩ "abc" ∧
    "g.h/x:abc" = ("g.h/x:abc" : String) :=
  imageref_deterministic
    ⟨some "t", true, true, some "abc", true, true, fun _ => none, some "n1",
     fun _ => false⟩
    ⟨some "t", true, true, some "abc", true, true, fun _ => none, some "n2",
     fun q => q == 3000⟩
    [] [] ⟨"g.h", "/x"⟩ "abc" 3000 3001 "g.h/x:abc" "g.h/x:abc"
    rfl rfl (by decide) (by decide)

/-- C8 counterexample: with two running instances `"aaa"` and `"bbb"` of the
image name, the identifier handed to the port query is the joined string
`"aaa\nbbb"`, not the first instance's identifier `"aaa"`. -/
theorem multi_instance_port_query_not_first :
    Event.dockerPortQuery "aaa\nbbb" ∈
      (CloneAndBuild
        ⟨some "t", true, true, some "abc", true, true, fun _ => none, some "n1",
         fun _ => false⟩
        [⟨"aaa", "g.h/x", 3000⟩, ⟨"bbb", "g.h/x", 3000⟩] ⟨"g.h", "/x"⟩).2.2 ∧
    Event.dockerPortQuery "aaa" ∉
      (CloneAndBuild
        ⟨some "t", true, true, some "abc", true, true, fun _ => none, some "n1",
         fun _ => false⟩
        [⟨"aaa", "g.h/x", 3000⟩, ⟨"bbb", "g.h/x", 3000⟩] ⟨"g.h", "/x"⟩).2.2 := by
  constructor <;> decide

/-- C8 as amended: when the probe reports instances, the pipeline passes the
newline-join of all reported identifiers — the whole trimmed `docker ps -q`
output — as a single identifier to the port query, rather than selecting the
first reported instance. -/
theorem probe_passes_all_ids_joined
    (env : Env) (st : List Container) (u : GoURL) (d r : String)
    (htmp : env.tempDir = some d)
    (hclone : env.cloneOk = true)
    (hdf : env.dockerfilePresent = true)
    (hrev : env.revOutput = some r)
    (hbuild : env.buildOk = true)
    (hps : env.psOk = true)
    (hne : String.intercalate "\n"
        ((psMatches st (imageNameOf u)).map (fun c => c.id)) ≠ "") :
    Event.dockerPortQuery
        (String.intercalate "\n"
          ((psMatches st (imageNameOf u)).map (fun c => c.id))) ∈
      (CloneAndBuild env st u).2.2 := by
  have hne2 : containerIDOf st (imageNameOf u) ≠ "" := hne
  have hm := runPipeline_portQuery_mem env st u r (containerIDOf st (imageNameOf u))
    hclone hdf hrev hbuild hps rfl hne2
  unfold CloneAndBuild
  rw [htmp]
  exact List.mem_append_left _ hm

/-- Witness for the amended C8 with two reported instances. -/
theorem probe_passes_all_ids_joined_witness :
    Event.dockerPortQuery
        (String.intercalate "\n"
          ((psMatches [⟨"aaa", "g.h/x", 3000⟩, ⟨"bbb", "g.h/x", 3000⟩]
              (imageNameOf ⟨"g.h", "/x"⟩)).map (fun c => c.id))) ∈
      (CloneAndBuild
        ⟨some "t", true, true, some "abc", true, true, fun _ => none, some "n1",
         fun _ => false⟩
        [⟨"aaa", "g.h/x", 3000⟩, ⟨"bbb", "g.h/x", 3000⟩] ⟨"g.h", "/x"⟩).2.2 :=
  probe_passes_all_ids_joined _
    [⟨"aaa", "g.h/x", 3000⟩, ⟨"bbb", "g.h/x", 3000⟩] ⟨"g.h", "/x"⟩ "t" "abc"
    rfl rfl rfl rfl rfl rfl (by decide)

end EasyDeploy
